import Mathlib

/-!
A verification development for Halide's `src/Param.h`: the scalar
pipeline-parameter handle `Param<T>`, its constructors, the reserved-name
check, typed get/set, range (min/max) configuration with automatic casting,
the conversions to IR expressions and signature arguments, and the
`user_context_value()` accessor.

The reference-counted `Internal::Parameter` record is modelled by an explicit
store (heap) of records indexed by natural numbers; a `Param` handle holds the
index of its record, so copying a handle shares the record, exactly as the
C++ handle copies the ref-counted pointer.  Fallible operations
(`user_assert` failures and dereferences of undefined IR expressions) return
an `Except` outcome paired with the store at the moment of the failure.
-/

namespace Halide

/-- Scalar type-code of a Halide `Type` (collaborator of Param.h).
Modelled from the spec: the type-tag system is consumed, not defined, by
`Param.h`; codes are integer, unsigned, float and opaque handle. -/
inductive TypeCode where
  | int
  | uint
  | float
  | handle
deriving DecidableEq

/-- A Halide `Type` tag: a code plus a bit width and a vector width.
Modelled from the spec: the scalar type-tag system (`typeOf<T>() -> TypeTag`,
decidable equality) consumed by the handle. -/
structure HType where
  code : TypeCode
  bits : Nat
  width : Nat
deriving DecidableEq

/-- The 32-bit signed integer type tag, `Int(32)`. -/
def HType.int32 : HType := ⟨TypeCode.int, 32, 1⟩

/-- The 32-bit float type tag, `Float(32)`. -/
def HType.float32 : HType := ⟨TypeCode.float, 32, 1⟩

/-- The opaque pointer type tag `Handle()`, used for `void*` parameters and
for the implicit user context. -/
def Handle : HType := ⟨TypeCode.handle, 64, 1⟩

/-- A scalar value stored in a parameter record's value slot.
Modelled from the spec: the record's scalar storage slot holds the bits of
one scalar value; we model the payloads our typed instances need. -/
inductive Scalar where
  | int (v : Int)
  | ptr (a : Nat)
deriving DecidableEq

/-- A Halide IR expression (collaborator of Param.h).
Modelled from the spec: the IR-expression type consumed by the handle has a
default-constructible undefined sentinel, integer literals, named variable
nodes referencing a backing parameter record, and cast nodes.  The variable
node carries the index of the record it references, as the C++ `Variable`
node carries the ref-counted `Parameter` handle. -/
inductive Expr where
  | undef
  | intImm (t : HType) (v : Int)
  | var (t : HType) (nm : String) (rec : Nat)
  | cast (t : HType) (e : Expr)
deriving DecidableEq

/-- The type of an IR expression.  Modelled from the spec: every defined
node carries its type tag; the undefined sentinel carries none (in the
source IR an undefined `Expr` holds a null node pointer, so reading its type
is a fault), hence the result is an `Option`. -/
def Expr.type : Expr → Option HType
  | Expr.undef => none
  | Expr.intImm t _ => some t
  | Expr.var t _ _ => some t
  | Expr.cast t _ => some t

theorem Expr.type_undef : Expr.type Expr.undef = none := rfl

/-- `Internal::Cast::make(t, e)`: wrap an expression in a cast node.
Modelled from the spec: the cast-node constructor `makeCast(targetType,
expr)` consumed by the handle's bound setters. -/
def Cast.make (t : HType) (e : Expr) : Expr := Expr.cast t e

/-- The shared parameter record behind one declared parameter.
Modelled from the spec: the `Internal::Parameter` record (not under
`src/`) holds the fixed type tag, the output flag and dimension count
(always `false`/`0` here), the name, the explicit-name flag, the scalar
value slot (empty until first `set`), and the min/max bound expressions
(the undefined sentinel until set, meaning unbounded). -/
structure Parameter where
  type : HType
  is_output : Bool
  dimensions : Nat
  name : String
  is_explicit_name : Bool
  data : Option Scalar
  min_value : Expr
  max_value : Expr
deriving DecidableEq

/-- `Internal::Parameter`'s constructor: a fresh record with no value and
unbounded (undefined) min/max.  Modelled from the spec: `create(type,
isOutput, dimensions, name, isExplicitName)` yields a record with no value,
no bounds, no default. -/
def Parameter.create (t : HType) (is_output : Bool) (dims : Nat)
    (n : String) (explicit : Bool) : Parameter :=
  ⟨t, is_output, dims, n, explicit, none, Expr.undef, Expr.undef⟩

/-- A junk record returned when a store lookup misses; never reachable from
handles produced by the constructors in this file. -/
def Parameter.junk : Parameter := Parameter.create HType.int32 false 0 "" false

/-- Association-list lookup for the record store. -/
def lookupRec : List (Nat × Parameter) → Nat → Option Parameter
  | [], _ => none
  | (j, r) :: rest, i => if j = i then some r else lookupRec rest i

/-- Association-list pointwise update for the record store. -/
def updateRec : List (Nat × Parameter) → Nat → (Parameter → Parameter) →
    List (Nat × Parameter)
  | [], _, _ => []
  | (j, r) :: rest, i, f =>
    if j = i then (j, f r) :: updateRec rest i f
    else (j, r) :: updateRec rest i f

/-- The heap of live parameter records.  Modelled from the spec: records are
shared, mutable and identity-bearing; the store assigns each one a fresh
index at creation, standing for the ref-counted allocation. -/
structure Store where
  recs : List (Nat × Parameter)
  next : Nat
deriving DecidableEq

/-- The empty store. -/
def Store.empty : Store := ⟨[], 0⟩

/-- Allocate a fresh record, returning its index and the grown store. -/
def Store.alloc (s : Store) (r : Parameter) : Nat × Store :=
  (s.next, ⟨(s.next, r) :: s.recs, s.next + 1⟩)

/-- Look a record up by index. -/
def Store.find (s : Store) (i : Nat) : Option Parameter :=
  lookupRec s.recs i

/-- Dereference a record index (total, with a junk default for misses). -/
def Store.getRec (s : Store) (i : Nat) : Parameter :=
  (s.find i).getD Parameter.junk

/-- Mutate the record at an index in place. -/
def Store.update (s : Store) (i : Nat) (f : Parameter → Parameter) : Store :=
  ⟨updateRec s.recs i f, s.next⟩

theorem lookupRec_updateRec_self (l : List (Nat × Parameter)) (i : Nat)
    (f : Parameter → Parameter) :
    lookupRec (updateRec l i f) i = (lookupRec l i).map f := by
  induction l with
  | nil => rfl
  | cons hd tl ih =>
    obtain ⟨j, r⟩ := hd
    by_cases hj : j = i
    · simp [updateRec, lookupRec, hj]
    · simp [updateRec, lookupRec, hj, ih]

theorem Store.find_update_self (s : Store) (i : Nat) (f : Parameter → Parameter) :
    (s.update i f).find i = (s.find i).map f := by
  simpa [Store.update, Store.find] using lookupRec_updateRec_self s.recs i f

theorem Store.find_alloc_self (s : Store) (r : Parameter) :
    (s.alloc r).2.find (s.alloc r).1 = some r := by
  simp [Store.alloc, Store.find, lookupRec]

/-- The compile-time mapping from a C++ scalar type `T` to its Halide type
tag, together with the encoding of `T`-values into the record's scalar slot.
Modelled from the spec: `typeOf<T>()` is fixed per `T`, and
`setScalar`/`getScalar` store and reinterpret the slot at type `T`, so
decoding an encoded value gives the value back. -/
class ScalarType (α : Type) where
  tag : HType
  enc : α → Scalar
  dec : Scalar → Option α
  dec_enc : ∀ v, dec (enc v) = some v

/-- `type_of<T>()`. -/
def type_of (α : Type) [ScalarType α] : HType := ScalarType.tag α

/-- `Param<int32_t>` is modelled with `Int` carrying the `Int(32)` tag. -/
instance : ScalarType Int where
  tag := HType.int32
  enc := Scalar.int
  dec := fun sc => match sc with
    | Scalar.int v => some v
    | _ => none
  dec_enc := fun _ => rfl

/-- `void*`, the C++ type of the user-context parameter. -/
structure VoidPtr where
  addr : Nat
deriving DecidableEq

/-- `Param<void*>` is modelled with `VoidPtr` carrying the `Handle()` tag. -/
instance : ScalarType VoidPtr where
  tag := Handle
  enc := fun p => Scalar.ptr p.addr
  dec := fun sc => match sc with
    | Scalar.ptr a => some ⟨a⟩
    | _ => none
  dec_enc := fun _ => rfl

/-- An abortive outcome: a `user_assert` failure carrying its message, or a
fault from dereferencing an undefined IR expression (a null node pointer in
the source IR). -/
inductive HErr where
  | userError (msg : String)
  | fault
deriving DecidableEq

/-- `Internal::make_entity_name(this, "Halide::Param<?", 'p')`.
Modelled from the spec: the EntityNamer derives a name, unique among live
handles, from the handle's own identity (here the fresh record index) and
the one-character role tag. -/
def make_entity_name (i : Nat) : String := "p" ++ toString i

/-- The message of the reserved-name `user_assert` in `Param::check_name`. -/
def reservedNameMsg : String :=
  "Param<void*>(\"__user_context\") is no longer used to control whether Halide functions take explicit user_context arguments. Use set_custom_user_context() when jitting, or add Target::UserContext to the Target feature set when compiling ahead of time."

/-- The `Param<T>` handle: a reference-counted handle on one parameter
record, modelled as the record's index into the store (`param` is the
source's field name for the `Internal::Parameter` member). -/
structure Param (α : Type) [ScalarType α] where
  param : Nat
deriving DecidableEq

namespace Param

variable {α : Type} [ScalarType α]

/-- `Param::name()`: the record's name. -/
def name (p : Param α) (s : Store) : String := (s.getRec p.param).name

/-- `Param::is_explicit_name()`. -/
def is_explicit_name (p : Param α) (s : Store) : Bool :=
  (s.getRec p.param).is_explicit_name

/-- `Param::check_name()`: `user_assert(param.name() != "__user_context")`,
failing with the migration message. -/
def check_name (p : Param α) (s : Store) : Except HErr Unit :=
  if (s.getRec p.param).name = "__user_context" then
    Except.error (HErr.userError reservedNameMsg)
  else Except.ok ()

/-- `Param::set(val)`: `param.set_scalar<T>(val)` stores the value into the
record's scalar slot. -/
def set (p : Param α) (v : α) (s : Store) : Store :=
  s.update p.param (fun r => { r with data := some (ScalarType.enc v) })

/-- `Param::get()`: `param.get_scalar<T>()` reads the slot back at type `T`;
`none` when the slot was never written (reading garbage in the source). -/
def get (p : Param α) (s : Store) : Option α :=
  (s.getRec p.param).data.bind ScalarType.dec

/-- `Param::type()`: `type_of<T>()`. -/
def type (_ : Param α) : HType := type_of α

/-- `Param::set_min_value(min)`: reads `min.type()` (a fault when `min` is
the undefined sentinel), wraps `min` in a cast to `type_of<T>()` when the
types differ, and stores the result as the record's min bound. -/
def set_min_value (p : Param α) (min : Expr) (s : Store) :
    Except HErr Unit × Store :=
  match Expr.type min with
  | none => (Except.error HErr.fault, s)
  | some t =>
    let m := if t ≠ type_of α then Cast.make (type_of α) min else min
    (Except.ok (), s.update p.param (fun r => { r with min_value := m }))

/-- `Param::set_max_value(max)`: symmetric to `set_min_value`. -/
def set_max_value (p : Param α) (max : Expr) (s : Store) :
    Except HErr Unit × Store :=
  match Expr.type max with
  | none => (Except.error HErr.fault, s)
  | some t =>
    let m := if t ≠ type_of α then Cast.make (type_of α) max else max
    (Except.ok (), s.update p.param (fun r => { r with max_value := m }))

/-- `Param::set_range(min, max)`: `set_min_value(min); set_max_value(max);`
in that order. -/
def set_range (p : Param α) (min max : Expr) (s : Store) :
    Except HErr Unit × Store :=
  match p.set_min_value min s with
  | (Except.error e, s1) => (Except.error e, s1)
  | (Except.ok _, s1) => p.set_max_value max s1

/-- `Param::get_min_value()`. -/
def get_min_value (p : Param α) (s : Store) : Expr :=
  (s.getRec p.param).min_value

/-- `Param::get_max_value()`. -/
def get_max_value (p : Param α) (s : Store) : Expr :=
  (s.getRec p.param).max_value

/-- `Param()`: the nullary constructor; a fresh record with an
auto-generated name and the explicit-name flag unset. -/
def mk_auto (α : Type) [ScalarType α] (s : Store) : Param α × Store :=
  let a := s.alloc (Parameter.create (type_of α) false 0
    (make_entity_name s.next) false)
  (⟨a.1⟩, a.2)

/-- `Param(const std::string &n)`: a fresh record with the given explicit
name, then `check_name()`; the store in the error case is the state at the
moment the `user_assert` fires. -/
def mk_named (α : Type) [ScalarType α] (n : String) (s : Store) :
    Except HErr (Param α) × Store :=
  let a := s.alloc (Parameter.create (type_of α) false 0 n true)
  let p : Param α := ⟨a.1⟩
  match p.check_name a.2 with
  | Except.error e => (Except.error e, a.2)
  | Except.ok _ => (Except.ok p, a.2)

/-- `Param(const char *n)`: the `const char*` overload; the same body as the
`std::string` overload. -/
def mk_named_cstr (α : Type) [ScalarType α] (n : String) (s : Store) :
    Except HErr (Param α) × Store :=
  let a := s.alloc (Parameter.create (type_of α) false 0 n true)
  let p : Param α := ⟨a.1⟩
  match p.check_name a.2 with
  | Except.error e => (Except.error e, a.2)
  | Except.ok _ => (Except.ok p, a.2)

/-- `Param(not_a_pointer<T>::type val)`: auto-generated name, then
`set(val)`; selectable only for non-pointer `T`. -/
def mk_val (α : Type) [ScalarType α] (v : α) (s : Store) : Param α × Store :=
  let a := mk_auto α s
  (a.1, a.1.set v a.2)

/-- `Param(const std::string &n, T val)`: explicit name, `check_name()`,
then `set(val)`. -/
def mk_named_val (α : Type) [ScalarType α] (n : String) (v : α) (s : Store) :
    Except HErr (Param α) × Store :=
  let a := s.alloc (Parameter.create (type_of α) false 0 n true)
  let p : Param α := ⟨a.1⟩
  match p.check_name a.2 with
  | Except.error e => (Except.error e, a.2)
  | Except.ok _ => (Except.ok p, p.set v a.2)

/-- `Param(T val, Expr min, Expr max)`: auto-generated name,
`set_range(min, max)`, then `set(val)`. -/
def mk_val_bounds (α : Type) [ScalarType α] (v : α) (min max : Expr)
    (s : Store) : Except HErr (Param α) × Store :=
  let a := mk_auto α s
  match a.1.set_range min max a.2 with
  | (Except.error e, s1) => (Except.error e, s1)
  | (Except.ok _, s1) => (Except.ok a.1, a.1.set v s1)

/-- `Param(const std::string &n, T val, Expr min, Expr max)`: explicit name,
`check_name()`, `set_range(min, max)`, then `set(val)`. -/
def mk_named_val_bounds (α : Type) [ScalarType α] (n : String) (v : α)
    (min max : Expr) (s : Store) : Except HErr (Param α) × Store :=
  let a := s.alloc (Parameter.create (type_of α) false 0 n true)
  let p : Param α := ⟨a.1⟩
  match p.check_name a.2 with
  | Except.error e => (Except.error e, a.2)
  | Except.ok _ =>
    match p.set_range min max a.2 with
    | (Except.error e, s1) => (Except.error e, s1)
    | (Except.ok _, s1) => (Except.ok p, p.set v s1)

/-- The copy constructor: copying a handle copies the ref-counted
`Internal::Parameter` member, so the copy shares the same record. -/
def copy (p : Param α) : Param α := ⟨p.param⟩

/-- `Param::operator Expr()`:
`Internal::Variable::make(type_of<T>(), name(), param)`. -/
def toExpr (p : Param α) (s : Store) : Expr :=
  Expr.var (type_of α) (p.name s) p.param

/-- `Parameter::get_scalar_expr()`.  Modelled from the spec: an IR
literal-expression view of the record's current scalar slot, the undefined
sentinel when the slot is empty. -/
def scalarExprOf (r : Parameter) : Expr :=
  match r.data with
  | none => Expr.undef
  | some (Scalar.int v) => Expr.intImm r.type v
  | some (Scalar.ptr a) => Expr.intImm r.type (Int.ofNat a)

end Param

/-- The kind tag of a signature argument.  Modelled from the spec: the
signature-argument descriptor distinguishes scalar inputs from buffer
inputs and outputs. -/
inductive ArgKind where
  | inputScalar
  | inputBuffer
  | outputBuffer
deriving DecidableEq

/-- A signature-argument descriptor.  Modelled from the spec: constructible
from `(name, kindTag, type, rank, defaultExpr, minExpr, maxExpr)`, used to
describe one input of a compiled function's signature. -/
structure Argument where
  name : String
  kind : ArgKind
  type : HType
  dimensions : Nat
  def_expr : Expr
  min_expr : Expr
  max_expr : Expr
deriving DecidableEq

/-- `Param::operator Argument()`: `Argument(name(), Argument::InputScalar,
type(), 0, param.get_scalar_expr(), param.get_min_value(),
param.get_max_value())`. -/
def Param.toArgument {α : Type} [ScalarType α] (p : Param α) (s : Store) :
    Argument :=
  ⟨p.name s, ArgKind.inputScalar, p.type, 0,
    Param.scalarExprOf (s.getRec p.param), p.get_min_value s,
    p.get_max_value s⟩

/-- `user_context_value()`: builds `Variable::make(Handle(),
"__user_context", Internal::Parameter(Handle(), false, 0, "__user_context",
true))` — note a fresh `Internal::Parameter` record is constructed on every
call. -/
def user_context_value (s : Store) : Expr × Store :=
  let a := s.alloc (Parameter.create Handle false 0 "__user_context" true)
  (Expr.var Handle "__user_context" a.1, a.2)

/-! ## Theorems -/

/-- C4: for every handle `p` of scalar type `T` and every value `v` of type
`T` — whatever bounds the record carries — `p.set(v)` followed by `p.get()`
returns `v`; no range validation is performed at set time (`set` is total
and succeeds on every store and every value). -/
theorem set_get_roundtrip {α : Type} [ScalarType α] (p : Param α) (v : α)
    (s : Store) (r : Parameter) (hr : s.find p.param = some r) :
    Param.get p (Param.set p v s) = some v := by
  simp [Param.get, Param.set, Store.getRec, Store.find_update_self, hr,
    ScalarType.dec_enc]

/-- C4 witness: a freshly constructed `Param<int32_t>` round-trips the value
`5` through `set`/`get`. -/
theorem set_get_roundtrip_witness :
    Param.get (Param.mk_auto Int Store.empty).1
      (Param.set (Param.mk_auto Int Store.empty).1 5
        (Param.mk_auto Int Store.empty).2) = some 5 :=
  set_get_roundtrip (Param.mk_auto Int Store.empty).1 5
    (Param.mk_auto Int Store.empty).2
    (Parameter.create HType.int32 false 0 (make_entity_name 0) false)
    (by decide)

/-- C5: a copy of a handle shares the single underlying record: setting the
value through the copy is observed by `get` on the original, and both
handles convert to variable expressions referencing the identical record
index (the original's `param`). -/
theorem copy_shares_record {α : Type} [ScalarType α] (p : Param α) (v : α)
    (s : Store) (r : Parameter) (hr : s.find p.param = some r) :
    Param.get p (Param.set (Param.copy p) v s) = some v ∧
    Param.toExpr (Param.copy p) s = Param.toExpr p s ∧
    Param.toExpr p s = Expr.var (type_of α) (p.name s) p.param ∧
    Param.toExpr (Param.copy p) s = Expr.var (type_of α) (p.name s) p.param := by
  refine ⟨?_, rfl, rfl, rfl⟩
  simp [Param.get, Param.set, Param.copy, Store.getRec, Store.find_update_self,
    hr, ScalarType.dec_enc]

/-- C5 witness: on a freshly constructed `Param<int32_t>`, a copy's `set 7`
is visible through the original's `get`, and both expression forms
coincide. -/
theorem copy_shares_record_witness :
    Param.get (Param.mk_auto Int Store.empty).1
      (Param.set (Param.copy (Param.mk_auto Int Store.empty).1) 7
        (Param.mk_auto Int Store.empty).2) = some 7 :=
  (copy_shares_record (Param.mk_auto Int Store.empty).1 7
    (Param.mk_auto Int Store.empty).2
    (Parameter.create HType.int32 false 0 (make_entity_name 0) false)
    (by decide)).1

/-- C7: for every handle of every scalar type `T`, conversion to
signature-argument form carries exactly the handle's name, the kind
`InputScalar`, `T`'s type tag, rank `0`, the record's scalar-value
expression, and the stored min and max bounds — the kind and rank are
independent of `T`. -/
theorem toArgument_fields {α : Type} [ScalarType α] (p : Param α) (s : Store) :
    (p.toArgument s).kind = ArgKind.inputScalar ∧
    (p.toArgument s).dimensions = 0 ∧
    (p.toArgument s).name = p.name s ∧
    (p.toArgument s).type = type_of α ∧
    (p.toArgument s).def_expr = Param.scalarExprOf (s.getRec p.param) ∧
    (p.toArgument s).min_expr = p.get_min_value s ∧
    (p.toArgument s).max_expr = p.get_max_value s :=
  ⟨rfl, rfl, rfl, rfl, rfl, rfl, rfl⟩

/-- C7 witness: the signature argument of a fresh `Param<int32_t>` at the
empty store, evaluated. -/
theorem toArgument_fields_witness :
    ((Param.mk_auto Int Store.empty).1.toArgument
        (Param.mk_auto Int Store.empty).2).kind = ArgKind.inputScalar ∧
    ((Param.mk_auto Int Store.empty).1.toArgument
        (Param.mk_auto Int Store.empty).2).dimensions = 0 :=
  ⟨(toArgument_fields (Param.mk_auto Int Store.empty).1
      (Param.mk_auto Int Store.empty).2).1,
   (toArgument_fields (Param.mk_auto Int Store.empty).1
      (Param.mk_auto Int Store.empty).2).2.1⟩

/-- C9 (the code at the failing input): `set_min_value`, `set_max_value`
and `set_range` applied to the undefined sentinel fault while reading the
argument's type — the bound is never left as the undefined sentinel by
these setters, contrary to the interface comment "Use undefined Exprs to
mean unbounded". -/
theorem undef_bound_faults {α : Type} [ScalarType α] (p : Param α) (s : Store) :
    p.set_min_value Expr.undef s = (Except.error HErr.fault, s) ∧
    p.set_max_value Expr.undef s = (Except.error HErr.fault, s) ∧
    p.set_range Expr.undef Expr.undef s = (Except.error HErr.fault, s) ∧
    Expr.type Expr.undef = none :=
  ⟨rfl, rfl, rfl, rfl⟩

/-- C9 witness: the fault evaluated on a fresh `Param<int32_t>`. -/
theorem undef_bound_faults_witness :
    (Param.mk_auto Int Store.empty).1.set_range Expr.undef Expr.undef
      (Param.mk_auto Int Store.empty).2 =
      (Except.error HErr.fault, (Param.mk_auto Int Store.empty).2) :=
  (undef_bound_faults (Param.mk_auto Int Store.empty).1
    (Param.mk_auto Int Store.empty).2).2.2.1

/-- C2: for a bound expression `e` with a (defined) type: when `e.type()`
differs from `T`'s tag the setter stores `e` wrapped in exactly one cast
node to `T`'s tag, so the stored bound's type is `T`'s tag; when the types
already agree it stores `e` itself unchanged; in neither case is an error
raised. -/
theorem set_bounds_cast {α : Type} [ScalarType α] (p : Param α) (e : Expr)
    (t : HType) (s : Store) (r : Parameter) (hr : s.find p.param = some r)
    (ht : e.type = some t) :
    (p.set_min_value e s).1 = Except.ok () ∧
    (p.set_max_value e s).1 = Except.ok () ∧
    (t ≠ type_of α →
      p.get_min_value (p.set_min_value e s).2 = Expr.cast (type_of α) e ∧
      (p.get_min_value (p.set_min_value e s).2).type = some (type_of α) ∧
      p.get_max_value (p.set_max_value e s).2 = Expr.cast (type_of α) e ∧
      (p.get_max_value (p.set_max_value e s).2).type = some (type_of α)) ∧
    (t = type_of α →
      p.get_min_value (p.set_min_value e s).2 = e ∧
      p.get_max_value (p.set_max_value e s).2 = e) := by
  refine ⟨?_, ?_, ?_, ?_⟩
  · simp [Param.set_min_value, ht]
  · simp [Param.set_max_value, ht]
  · intro hne
    simp only [Param.set_min_value, Param.set_max_value, ht]
    simp [Param.get_min_value, Param.get_max_value, hne, Cast.make,
      Store.getRec, Store.find_update_self, hr, Expr.type]
  · intro heq
    simp [Param.set_min_value, Param.set_max_value, Param.get_min_value,
      Param.get_max_value, ht, heq, Store.getRec, Store.find_update_self, hr]

/-- C2 witness: on a fresh `Param<int32_t>`, a `Float(32)` literal bound is
stored wrapped in a single cast to `Int(32)`. -/
theorem set_bounds_cast_witness :
    ((Param.mk_auto Int Store.empty).1.set_min_value
        (Expr.intImm HType.float32 0) (Param.mk_auto Int Store.empty).2).1 =
      Except.ok () :=
  (set_bounds_cast (Param.mk_auto Int Store.empty).1
    (Expr.intImm HType.float32 0) HType.float32
    (Param.mk_auto Int Store.empty).2
    (Parameter.create HType.int32 false 0 (make_entity_name 0) false)
    (by decide) rfl).1

/-- C1: every name-accepting constructor variant (name-only from
`std::string` or `const char*`, name-and-value, name-value-and-bounds)
rejects the name `"__user_context"` with the reserved-name `user_assert`
message; every other explicit name is accepted; and the message both states
the old meaning of the identifier and names the two modern replacement
mechanisms (`set_custom_user_context` for jitting, `Target::UserContext`
for ahead-of-time compilation). -/
theorem reserved_name_rejected {α : Type} [ScalarType α] (n : String) (v : α)
    (mn mx : Expr) (tm tx : HType) (s : Store)
    (hn : n ≠ "__user_context") (hm : mn.type = some tm)
    (hx : mx.type = some tx) :
    (Param.mk_named α "__user_context" s).1 =
      Except.error (HErr.userError reservedNameMsg) ∧
    (Param.mk_named_cstr α "__user_context" s).1 =
      Except.error (HErr.userError reservedNameMsg) ∧
    (Param.mk_named_val α "__user_context" v s).1 =
      Except.error (HErr.userError reservedNameMsg) ∧
    (Param.mk_named_val_bounds α "__user_context" v mn mx s).1 =
      Except.error (HErr.userError reservedNameMsg) ∧
    (Param.mk_named α n s).1 = Except.ok ⟨s.next⟩ ∧
    (Param.mk_named_cstr α n s).1 = Except.ok ⟨s.next⟩ ∧
    (Param.mk_named_val α n v s).1 = Except.ok ⟨s.next⟩ ∧
    (Param.mk_named_val_bounds α n v mn mx s).1 = Except.ok ⟨s.next⟩ ∧
    (∃ a b, reservedNameMsg =
      a ++ "is no longer used to control whether Halide functions take explicit user_context arguments" ++ b) ∧
    (∃ a b, reservedNameMsg = a ++ "set_custom_user_context" ++ b) ∧
    (∃ a b, reservedNameMsg = a ++ "Target::UserContext" ++ b) := by
  refine ⟨?_, ?_, ?_, ?_, ?_, ?_, ?_, ?_, ?_, ?_, ?_⟩
  · simp [Param.mk_named, Param.check_name, Store.getRec, Store.alloc,
      Store.find, lookupRec, Parameter.create]
  · simp [Param.mk_named_cstr, Param.check_name, Store.getRec, Store.alloc,
      Store.find, lookupRec, Parameter.create]
  · simp [Param.mk_named_val, Param.check_name, Store.getRec, Store.alloc,
      Store.find, lookupRec, Parameter.create]
  · simp [Param.mk_named_val_bounds, Param.check_name, Store.getRec,
      Store.alloc, Store.find, lookupRec, Parameter.create]
  · simp [Param.mk_named, Param.check_name, Store.getRec, Store.alloc,
      Store.find, lookupRec, Parameter.create, hn]
  · simp [Param.mk_named_cstr, Param.check_name, Store.getRec, Store.alloc,
      Store.find, lookupRec, Parameter.create, hn]
  · simp [Param.mk_named_val, Param.check_name, Store.getRec, Store.alloc,
      Store.find, lookupRec, Parameter.create, hn]
  · simp only [Param.mk_named_val_bounds, Param.check_name, Param.set_range,
      Param.set_min_value, Param.set_max_value, Store.getRec, Store.alloc,
      Store.find, lookupRec, Parameter.create, hm, hx]
    simp [hn]
  · exact ⟨"Param<void*>(\"__user_context\") ", ". Use set_custom_user_context() when jitting, or add Target::UserContext to the Target feature set when compiling ahead of time.", rfl⟩
  · exact ⟨"Param<void*>(\"__user_context\") is no longer used to control whether Halide functions take explicit user_context arguments. Use ", "() when jitting, or add Target::UserContext to the Target feature set when compiling ahead of time.", rfl⟩
  · exact ⟨"Param<void*>(\"__user_context\") is no longer used to control whether Halide functions take explicit user_context arguments. Use set_custom_user_context() when jitting, or add ", " to the Target feature set when compiling ahead of time.", rfl⟩

/-- C1 witness: `Param<int32_t>("__user_context")` fails with the
reserved-name message, instantiated via the general theorem at the name
`"threshold"`, value `5` and `Int(32)` literal bounds `0`/`255`. -/
theorem reserved_name_rejected_witness :
    (Param.mk_named Int "__user_context" Store.empty).1 =
      Except.error (HErr.userError reservedNameMsg) :=
  (reserved_name_rejected "threshold" (5 : Int) (Expr.intImm HType.int32 0)
    (Expr.intImm HType.int32 255) HType.int32 HType.int32 Store.empty
    (by decide) rfl rfl).1

/-- C6: each value-with-bounds constructor establishes the bounds before
writing the value: `set_range(min, max)` runs `set_min_value` then
`set_max_value` in that order, and `set(val)` only runs afterwards — after
a successful construction the record holds both the (coerced) bounds and
the value, and when establishing the bounds faults the value has not yet
been written. -/
theorem bounds_before_value {α : Type} [ScalarType α] (n : String) (v : α)
    (mn mx : Expr) (tm tx : HType) (s : Store)
    (hm : mn.type = some tm) (hx : mx.type = some tx)
    (hn : n ≠ "__user_context") :
    (∀ (p : Param α) (s0 : Store),
      p.set_range mn mx s0 = p.set_max_value mx (p.set_min_value mn s0).2) ∧
    (Param.mk_val_bounds α v mn mx s).1 = Except.ok ⟨s.next⟩ ∧
    ((Param.mk_val_bounds α v mn mx s).2.getRec s.next).data =
      some (ScalarType.enc v) ∧
    ((Param.mk_val_bounds α v mn mx s).2.getRec s.next).min_value =
      (if tm = type_of α then mn else Expr.cast (type_of α) mn) ∧
    ((Param.mk_val_bounds α v mn mx s).2.getRec s.next).max_value =
      (if tx = type_of α then mx else Expr.cast (type_of α) mx) ∧
    (Param.mk_named_val_bounds α n v mn mx s).1 = Except.ok ⟨s.next⟩ ∧
    ((Param.mk_named_val_bounds α n v mn mx s).2.getRec s.next).data =
      some (ScalarType.enc v) ∧
    ((Param.mk_named_val_bounds α n v mn mx s).2.getRec s.next).min_value =
      (if tm = type_of α then mn else Expr.cast (type_of α) mn) ∧
    (Param.mk_val_bounds α v Expr.undef mx s).1 = Except.error HErr.fault ∧
    ((Param.mk_val_bounds α v Expr.undef mx s).2.getRec s.next).data = none ∧
    (Param.mk_named_val_bounds α n v Expr.undef mx s).1 =
      Except.error HErr.fault ∧
    ((Param.mk_named_val_bounds α n v Expr.undef mx s).2.getRec
      s.next).data = none := by
  refine ⟨?_, ?_⟩
  · intro p s0
    simp [Param.set_range, Param.set_min_value, hm]
  · simp only [Param.mk_val_bounds, Param.mk_named_val_bounds, Param.mk_auto,
      Param.check_name, Param.set_range, Param.set_min_value,
      Param.set_max_value, Param.set, Store.alloc, Store.update, Store.find,
      Store.getRec, lookupRec, updateRec, Parameter.create, Cast.make,
      Expr.type_undef, hm, hx]
    simp [hn, Store.update, Store.find, Store.getRec, lookupRec, updateRec]

/-- C6 witness: `Param<int32_t>` value-with-bounds construction at value
`5`, bounds the `Int(32)` literals `0` and `255`, name `"threshold"`. -/
theorem bounds_before_value_witness :
    (Param.mk_val_bounds Int 5 (Expr.intImm HType.int32 0)
      (Expr.intImm HType.int32 255) Store.empty).1 = Except.ok ⟨0⟩ :=
  (bounds_before_value "threshold" (5 : Int) (Expr.intImm HType.int32 0)
    (Expr.intImm HType.int32 255) HType.int32 HType.int32 Store.empty
    rfl rfl (by decide)).2.1

/-- C8: in the name-and-value and name-value-and-bounds constructors the
reserved-name check runs before any value or bounds are written: a
construction failing with the reserved-name error leaves the record (as of
the moment the `user_assert` fires) with no value and with both bounds
still the undefined sentinel. -/
theorem check_name_before_writes {α : Type} [ScalarType α] (v : α)
    (mn mx : Expr) (s : Store) :
    (Param.mk_named_val α "__user_context" v s).1 =
      Except.error (HErr.userError reservedNameMsg) ∧
    ((Param.mk_named_val α "__user_context" v s).2.getRec s.next).data =
      none ∧
    ((Param.mk_named_val α "__user_context" v s).2.getRec
      s.next).min_value = Expr.undef ∧
    ((Param.mk_named_val α "__user_context" v s).2.getRec
      s.next).max_value = Expr.undef ∧
    (Param.mk_named_val_bounds α "__user_context" v mn mx s).1 =
      Except.error (HErr.userError reservedNameMsg) ∧
    ((Param.mk_named_val_bounds α "__user_context" v mn mx s).2.getRec
      s.next).data = none ∧
    ((Param.mk_named_val_bounds α "__user_context" v mn mx s).2.getRec
      s.next).min_value = Expr.undef ∧
    ((Param.mk_named_val_bounds α "__user_context" v mn mx s).2.getRec
      s.next).max_value = Expr.undef := by
  simp [Param.mk_named_val, Param.mk_named_val_bounds, Param.check_name,
    Store.alloc, Store.update, Store.find, Store.getRec, lookupRec,
    updateRec, Parameter.create]

/-- C8 witness: `Param<int32_t>("__user_context", 5)` and the bounds
variant, evaluated at the empty store. -/
theorem check_name_before_writes_witness :
    (Param.mk_named_val Int "__user_context" 5 Store.empty).1 =
      Except.error (HErr.userError reservedNameMsg) :=
  (check_name_before_writes (5 : Int) (Expr.intImm HType.int32 0)
    (Expr.intImm HType.int32 255) Store.empty).1

/-- C3 counterexample: two calls to `user_context_value()` do NOT return
expressions referencing the identical underlying parameter record — each
call constructs a fresh `Internal::Parameter`, so the two variable nodes
reference distinct records and the expressions differ. -/
theorem user_context_value_not_shared :
    (user_context_value Store.empty).1 ≠
      (user_context_value (user_context_value Store.empty).2).1 := by
  decide

/-- C3 amended: `user_context_value()` always returns a variable expression
of opaque handle type under the fixed reserved name `"__user_context"`, but
over a record constructed freshly by that very call (there is no
process-wide lazily created record): two calls yield expressions that agree
in name and type yet reference distinct underlying records. -/
theorem user_context_value_fresh_record (s : Store) :
    (user_context_value s).1 = Expr.var Handle "__user_context" s.next ∧
    (user_context_value s).2.find s.next =
      some (Parameter.create Handle false 0 "__user_context" true) ∧
    (user_context_value (user_context_value s).2).1 =
      Expr.var Handle "__user_context" (s.next + 1) ∧
    (user_context_value (user_context_value s).2).1 ≠
      (user_context_value s).1 := by
  refine ⟨rfl, ?_, rfl, ?_⟩
  · simp [user_context_value, Store.alloc, Store.find, lookupRec]
  · simp [user_context_value, Store.alloc]

/-- C3 amended, witness: evaluated from the empty store. -/
theorem user_context_value_fresh_record_witness :
    (user_context_value Store.empty).1 =
      Expr.var Handle "__user_context" 0 :=
  (user_context_value_fresh_record Store.empty).1

/-- C10: `user_context_value()` never fails (it is a total function — the
reserved-name check lives only in `Param`'s name-accepting constructors and
is not consulted here): it allocates its record under the reserved name
`"__user_context"` with the opaque handle type tag, output flag `false`,
dimensions `0` and the explicit-name flag `true`, and returns a variable
expression of opaque handle type named `"__user_context"` over that record;
yet a `Param` handle on that same record would fail `check_name`. -/
theorem user_context_value_never_fails (s : Store) :
    (user_context_value s).1 = Expr.var Handle "__user_context" s.next ∧
    ((user_context_value s).2.getRec s.next).type = Handle ∧
    ((user_context_value s).2.getRec s.next).is_output = false ∧
    ((user_context_value s).2.getRec s.next).dimensions = 0 ∧
    ((user_context_value s).2.getRec s.next).name = "__user_context" ∧
    ((user_context_value s).2.getRec s.next).is_explicit_name = true ∧
    Expr.type (user_context_value s).1 = some Handle ∧
    Param.check_name (α := VoidPtr) ⟨s.next⟩ (user_context_value s).2 =
      Except.error (HErr.userError reservedNameMsg) := by
  refine ⟨rfl, ?_, ?_, ?_, ?_, ?_, rfl, ?_⟩ <;>
    simp [user_context_value, Param.check_name, Store.alloc, Store.find,
      Store.getRec, lookupRec, Parameter.create]

/-- C10 witness: evaluated from the empty store. -/
theorem user_context_value_never_fails_witness :
    (user_context_value Store.empty).1 =
      Expr.var Handle "__user_context" 0 ∧
    ((user_context_value Store.empty).2.getRec 0).name =
      "__user_context" :=
  ⟨(user_context_value_never_fails Store.empty).1,
   (user_context_value_never_fails Store.empty).2.2.2.2.1⟩

end Halide
